import Mathlib

/-!
Shallow embedding of the NEP-246 multi-token core (src/multi_token/core/core_impl.rs).

Conventions of the embedding:
* `u128`/`u64` values are modelled as `Nat`; the checked arithmetic of the source
  (`checked_add` / `checked_sub`) is modelled by `checkedAdd` / `checkedSub` returning
  `Option Nat`, and the few unchecked u128 operations are modelled with wrap-around
  `% U128MOD` (release-profile semantics).
* every fallible contract invocation returns `Option`: `none` models a host panic
  (`require!`, `expect`, `env::panic_str`), which atomically discards all mutations of
  the invocation.
* `near_sdk` maps (`LookupMap`, `TreeMap`, `UnorderedMap`, `HashMap`) are modelled as
  association lists with `alookup` / `ainsert` / `aremove`.  A `LookupMap` is a handle
  into trie storage, so inserts performed on a map fetched from `balances_per_token`
  persist; the model makes that explicit by writing the updated inner map back.
-/

set_option synthInstance.maxSize 512

abbrev AccountId := String
abbrev TokenId := String

def U128MOD : Nat := 2 ^ 128

def U128MAX : Nat := U128MOD - 1

/-- Checked u128 addition: `a.checked_add(b)` succeeds iff the sum fits in 128 bits. -/
def checkedAdd (a b : Nat) : Option Nat :=
  if a + b < U128MOD then some (a + b) else none

/-- Checked u128 subtraction: `a.checked_sub(b)` succeeds iff `b ≤ a`. -/
def checkedSub (a b : Nat) : Option Nat :=
  if b ≤ a then some (a - b) else none

/-- Checked u64 addition, used for `next_token_id`. -/
def checkedAdd64 (a b : Nat) : Option Nat :=
  if a + b < 2 ^ 64 then some (a + b) else none

/-- Lookup in an association list keyed by strings. -/
def alookup {α : Type} : List (String × α) → String → Option α
  | [], _ => none
  | (k', v) :: rest, k => if k' = k then some v else alookup rest k

/-- Remove every binding of a key from an association list (map `remove`). -/
def aremove {α : Type} : List (String × α) → String → List (String × α)
  | [], _ => []
  | (k', v) :: rest, k => if k' = k then aremove rest k else (k', v) :: aremove rest k

/-- Insert (or overwrite) a binding in an association list (map `insert`). -/
def ainsert {α : Type} (l : List (String × α)) (k : String) (v : α) : List (String × α) :=
  (k, v) :: aremove l k

/-- Modelled from the spec: per-token metadata record (`src/multi_token/metadata.rs` is not
under `src/`); the core only tests its presence, so its contents are reduced to a title. -/
structure TokenMetadata where
  title : Option String
  deriving DecidableEq, Repr

/-- Modelled from the spec: an approval `(approval_id, ceiling)` granted to a spender
(`src/multi_token/token.rs` is not under `src/`); the core reads only `approval_id`. -/
structure Approval where
  amount : Nat
  approval_id : Nat
  deriving DecidableEq, Repr

/-- Modelled from the spec and from the construction site in `internal_mint_with_refund`
(`src/multi_token/token.rs` is not under `src/`): the token view returned by minting. -/
structure Token where
  token_id : TokenId
  owner_id : AccountId
  supply : Nat
  metadata : Option TokenMetadata
  approvals : Option (List (AccountId × Approval))
  next_approval_id : Option Nat
  deriving DecidableEq, Repr

/-- State of the `MultiToken` struct of `core_impl.rs`.  Optional extensions
(metadata, enumeration, approval management) are `Option` maps exactly as in the source. -/
structure MultiToken where
  owner_id : AccountId
  extra_storage_in_bytes_per_emission : Nat
  owner_by_id : List (TokenId × AccountId)
  total_supply : List (TokenId × Nat)
  token_metadata_by_id : Option (List (TokenId × TokenMetadata))
  tokens_per_owner : Option (List (AccountId × List TokenId))
  balances_per_token : List (TokenId × List (AccountId × Nat))
  approvals_by_id : Option (List (TokenId × List (AccountId × Approval)))
  next_approval_id_by_id : Option (List (TokenId × Nat))
  next_token_id : Nat
  deriving DecidableEq, Repr

/-- Constructor `MultiToken::new`: empty maps, extensions enabled by the presence of
their storage-key prefixes (modelled as booleans). -/
def MultiToken.new (owner : AccountId)
    (withMetadata withEnumeration withApproval : Bool) : MultiToken :=
  { owner_id := owner
    extra_storage_in_bytes_per_emission := 0
    owner_by_id := []
    total_supply := []
    token_metadata_by_id := if withMetadata then some [] else none
    tokens_per_owner := if withEnumeration then some [] else none
    balances_per_token := []
    approvals_by_id := if withApproval then some [] else none
    next_approval_id_by_id := if withApproval then some [] else none
    next_token_id := 0 }

/-- The host keeps the pre-call state whenever an invocation panics: a `none` result
persists nothing. -/
def persistState (s : MultiToken) (result : Option MultiToken) : MultiToken :=
  result.getD s

/-- `internal_unwrap_balance_of`: panics if the token has no balance map
("This token does not exist") or the account has no entry ("... is not registered"). -/
def MultiToken.internal_unwrap_balance_of (self : MultiToken)
    (token_id : TokenId) (account_id : AccountId) : Option Nat :=
  match alookup self.balances_per_token token_id with
  | none => none
  | some m =>
    match alookup m account_id with
    | some balance => some balance
    | none => none

/-- `internal_deposit`: checked-add to the account's balance and to the token's
`total_supply` entry; panics on "Balance overflow" / "Total supply overflow". -/
def MultiToken.internal_deposit (self : MultiToken)
    (token_id : TokenId) (account_id : AccountId) (amount : Nat) : Option MultiToken :=
  match self.internal_unwrap_balance_of token_id account_id with
  | none => none
  | some balance =>
    match checkedAdd balance amount with
    | none => none
    | some newBal =>
      match alookup self.balances_per_token token_id with
      | none => none
      | some balances =>
        match alookup self.total_supply token_id with
        | none => none
        | some ts =>
          match checkedAdd ts amount with
          | none => none
          | some ts1 =>
            some { self with
              balances_per_token :=
                ainsert self.balances_per_token token_id (ainsert balances account_id newBal)
              total_supply := ainsert self.total_supply token_id ts1 }

/-- `internal_withdraw`: checked-sub from the account's balance
("The account doesn't have enough balance") and from the token's `total_supply` entry
("Total supply overflow"). -/
def MultiToken.internal_withdraw (self : MultiToken)
    (token_id : TokenId) (account_id : AccountId) (amount : Nat) : Option MultiToken :=
  match self.internal_unwrap_balance_of token_id account_id with
  | none => none
  | some balance =>
    match checkedSub balance amount with
    | none => none
    | some newBal =>
      match alookup self.balances_per_token token_id with
      | none => none
      | some balances =>
        match alookup self.total_supply token_id with
        | none => none
        | some ts =>
          match checkedSub ts amount with
          | none => none
          | some ts1 =>
            some { self with
              balances_per_token :=
                ainsert self.balances_per_token token_id (ainsert balances account_id newBal)
              total_supply := ainsert self.total_supply token_id ts1 }

/-- `internal_register_account`: inserts a zero balance; panics
"The account is already registered" if an entry exists (insert returns the old value). -/
def MultiToken.internal_register_account (self : MultiToken)
    (token_id : TokenId) (account_id : AccountId) : Option MultiToken :=
  match alookup self.balances_per_token token_id with
  | none => none
  | some balances =>
    match alookup balances account_id with
    | some _ => none
    | none =>
      some { self with
        balances_per_token :=
          ainsert self.balances_per_token token_id (ainsert balances account_id 0) }

/-- `internal_balance_of` (`core_impl.rs:600`): panics "Token not found." when the token
has no balance map, otherwise returns the entry with absence coerced to `0`
(`unwrap_or(0)`). -/
def MultiToken.internal_balance_of (self : MultiToken)
    (account_id : AccountId) (token_id : TokenId) : Option Nat :=
  match alookup self.balances_per_token token_id with
  | none => none
  | some m => some ((alookup m account_id).getD 0)

/-- `mt_balance_of` forwards to `internal_balance_of`. -/
def MultiToken.mt_balance_of (self : MultiToken)
    (account_id : AccountId) (token_id : TokenId) : Option Nat :=
  self.internal_balance_of account_id token_id

/-- Authorization step of `internal_transfer` (`core_impl.rs:241`-`257`): the owner
passes, a non-owner sender must appear in the just-removed approval set
(`expect("Unauthorized")` / `panic_str("Sender not approved")`) and, when an
`approval_id` was supplied, it must match the recorded one. -/
def transferAuth (approvals : Option (List (AccountId × Approval)))
    (sender_id owner_of_token : AccountId) (approval_id : Option Nat) : Option Unit :=
  if sender_id = owner_of_token then some ()
  else
    match approvals with
    | none => none
    | some approved_accounts =>
      match alookup approved_accounts sender_id with
      | none => none
      | some approval =>
        match approval_id with
        | none => some ()
        | some aid => if approval.approval_id = aid then some () else none

/-- `internal_transfer` (`core_impl.rs:222`).  Checks `sender != receiver` and
`amount > 0`, resolves the token's owner-of-record, removes the token's whole approval
map (returning the removed set), runs the authorization check for non-owner senders
against that removed set, and then withdraws/deposits.  Note: both branches of the
source's `if sender_id != &owner_of_token` bind `owner_id` to `Some(sender_id)`
(lines 241-257), so the withdrawal, the second `require!` ("Sender and receiver must
differ", duplicating the first check) and the returned first component all use the
sender, never the stored owner-of-record. -/
def MultiToken.internal_transfer (self : MultiToken)
    (sender_id receiver_id : AccountId) (token_id : TokenId)
    (amount : Nat) (approval_id : Option Nat) :
    Option (MultiToken × AccountId × Option (List (AccountId × Approval))) :=
  if sender_id = receiver_id then none
  else if amount = 0 then none
  else
    match alookup self.owner_by_id token_id with
    | none => none
    | some owner_of_token =>
      match transferAuth (self.approvals_by_id.bind (fun by_id => alookup by_id token_id))
          sender_id owner_of_token approval_id with
      | none => none
      | some _ =>
        if sender_id = receiver_id then none
        else
          match ({ self with approvals_by_id :=
                    self.approvals_by_id.map (fun by_id => aremove by_id token_id) } :
                  MultiToken).internal_withdraw token_id sender_id amount with
          | none => none
          | some self2 =>
            match self2.internal_deposit token_id receiver_id amount with
            | none => none
            | some self3 =>
              some (self3, sender_id,
                    self.approvals_by_id.bind (fun by_id => alookup by_id token_id))

/-- Sequential loop of `internal_batch_transfer`: the source iterates over
`0..token_ids.len()` indexing `amounts[i]` and `approval_ids[i]`, so a shorter
`amounts`/`approval_ids` vector panics with an out-of-bounds access. -/
def batchGo (sender_id receiver_id : AccountId) :
    MultiToken → List TokenId → List Nat → List (Option Nat) →
    Option (MultiToken × List AccountId × List (Option (List (AccountId × Approval))))
  | s, [], _, _ => some (s, [], [])
  | s, t :: trest, a :: arest, i :: irest =>
    match s.internal_transfer sender_id receiver_id t a i with
    | none => none
    | some (s1, o, ap) =>
      match batchGo sender_id receiver_id s1 trest arest irest with
      | none => none
      | some (s2, os, aps) => some (s2, o :: os, ap :: aps)
  | _, _ :: _, _, _ => none

/-- `internal_batch_transfer`: applies `internal_transfer` per index, defaulting
`approval_ids` to `vec![None; token_ids.len()]`, and unzips the results. -/
def MultiToken.internal_batch_transfer (self : MultiToken)
    (sender_id receiver_id : AccountId) (token_ids : List TokenId)
    (amounts : List Nat) (approval_ids : Option (List (Option Nat))) :
    Option (MultiToken × List AccountId × List (Option (List (AccountId × Approval)))) :=
  batchGo sender_id receiver_id self token_ids amounts
    (approval_ids.getD (List.replicate token_ids.length none))

/-- `mt_batch_transfer`: `assert_one_yocto` (the attached deposit must be exactly one
yoctoNEAR), `require!(token_ids.len() == amounts.len())`, `require!(token_ids.len() > 0)`
and then `internal_batch_transfer` with the predecessor account as sender.  The returned
state is the persisted result of the invocation. -/
def MultiToken.mt_batch_transfer (self : MultiToken)
    (attached_deposit : Nat) (predecessor_id : AccountId) (receiver_id : AccountId)
    (token_ids : List TokenId) (amounts : List Nat)
    (approval_ids : Option (List (Option Nat))) (_memo : Option String) :
    Option MultiToken :=
  if attached_deposit = 1 then
    if token_ids.length = amounts.length then
      if 0 < token_ids.length then
        match self.internal_batch_transfer predecessor_id receiver_id
            token_ids amounts approval_ids with
        | none => none
        | some (s, _owners, _approvals) => some s
      else none
    else none
  else none

/-- `internal_mint_with_refund` (`core_impl.rs:314`): requires metadata when the
metadata extension is enabled, allocates the next token id with checked u64 arithmetic,
initialises the approval counter, records the owner, stores `u128::MAX` as the token's
`total_supply`, creates the owner's balance entry with the initial amount, updates the
enumeration extension, and returns the `Token` view.  The storage refund to `refund_id`
is an external payment effect with no ledger impact. -/
def MultiToken.internal_mint_with_refund (self : MultiToken)
    (token_owner_id : AccountId) (owner_amount : Option Nat)
    (token_metadata : Option TokenMetadata) (_refund_id : Option AccountId) :
    Option (MultiToken × Token) :=
  if self.token_metadata_by_id.isSome ∧ token_metadata.isNone then none
  else
    match checkedAdd64 self.next_token_id 1 with
    | none => none
    | some nextId =>
      let token_id : TokenId := toString nextId
      let next_approval_id_by_id :=
        self.next_approval_id_by_id.map (fun m => ainsert m token_id 0)
      let owner_id := token_owner_id
      let owner_by_id := ainsert self.owner_by_id token_id owner_id
      match self.token_metadata_by_id, token_metadata with
      | some _, none => none
      | mdb, md =>
        let token_metadata_by_id :=
          match mdb, md with
          | some m, some mdv => some (ainsert m token_id mdv)
          | _, _ => mdb
        let total_supply := ainsert self.total_supply token_id U128MAX
        let balances_per_token :=
          ainsert self.balances_per_token token_id
            (ainsert [] owner_id (owner_amount.getD 0))
        let tokens_per_owner :=
          self.tokens_per_owner.map (fun per_owner =>
            let token_ids := (alookup per_owner owner_id).getD []
            ainsert per_owner owner_id
              (if token_id ∈ token_ids then token_ids else token_ids ++ [token_id]))
        let approved_account_ids :=
          if self.approvals_by_id.isSome then some ([] : List (AccountId × Approval))
          else none
        some ({ self with
                  owner_by_id := owner_by_id
                  total_supply := total_supply
                  token_metadata_by_id := token_metadata_by_id
                  tokens_per_owner := tokens_per_owner
                  balances_per_token := balances_per_token
                  next_approval_id_by_id := next_approval_id_by_id
                  next_token_id := nextId },
              { token_id := token_id
                owner_id := owner_id
                supply := U128MAX
                metadata := md
                approvals := approved_account_ids
                next_approval_id := some 0 })

/-- `internal_mint`: `internal_mint_with_refund` followed by the mint event emission,
which has no ledger effect. -/
def MultiToken.internal_mint (self : MultiToken)
    (owner_id : AccountId) (owner_amount : Option Nat)
    (metadata : Option TokenMetadata) (refund_id : Option AccountId) :
    Option (MultiToken × Token) :=
  self.internal_mint_with_refund owner_id owner_amount metadata refund_id

/-- Outcome of the `mt_on_transfer` notification promise as read by
`env::promise_result(0)`.  `successful` carries the reply body, represented by the
outcome of the source's `serde_json::from_slice::<Vec<U128>>` parse: `some vals` for a
well-formed list of unused amounts, `none` for a malformed reply. -/
inductive PromiseResult where
  | notReady
  | successful (parsed : Option (List Nat))
  | failed
  deriving DecidableEq, Repr

/-- Clamp step of `internal_resolve_transfers`:
`(0..amounts.len()).map(|i| min(amounts[i], unused[i]))`.  A parsed reply shorter than
`amounts` panics with an out-of-bounds index; extra entries are ignored. -/
def clampUnused : List Nat → List Nat → Option (List Nat)
  | [], _ => some []
  | _ :: _, [] => none
  | a :: arest, u :: urest =>
    match clampUnused arest urest with
    | none => none
    | some tailvals => some (min a u :: tailvals)

/-- Unused-amount vector chosen by `internal_resolve_transfers` from the promise
outcome (`core_impl.rs:620`): abort when not ready, clamp a well-formed reply, take the
full `amounts` on a malformed reply, and take all zeros on an outright failure. -/
def computeUnused (amounts : List Nat) : PromiseResult → Option (List Nat)
  | .notReady => none
  | .successful (some parsedVals) => clampUnused amounts parsedVals
  | .successful none => some amounts
  | .failed => some (List.replicate amounts.length 0)

/-- `internal_resolve_single_transfer` (`core_impl.rs:643`).  Moves
`min(receiver_balance, unused)` back from the receiver to `sender_id` when possible.
When the sender's balance entry is gone, the source executes
`*self.total_supply.get(&token_id).as_mut().unwrap() -= refund`, which subtracts from a
temporary copy returned by `LookupMap::get` and never writes it back, so the stored
`total_supply` is unchanged; only the `.unwrap()` panic on a missing entry is
observable.  Unchecked u128 arithmetic is modelled with wrap-around. -/
def MultiToken.internal_resolve_single_transfer (self : MultiToken)
    (sender_id receiver : AccountId) (token_id : TokenId)
    (amount unused : Nat) : Option (MultiToken × Nat × Nat) :=
  if 0 < unused then
    match alookup self.balances_per_token token_id with
    | none => none
    | some balances =>
      let receiver_balance := (alookup balances receiver).getD 0
      if 0 < receiver_balance then
        let refund := min receiver_balance unused
        let balances1 := ainsert balances receiver (receiver_balance - refund)
        match alookup balances1 sender_id with
        | some sender_balance =>
          some ({ self with
                    balances_per_token :=
                      ainsert self.balances_per_token token_id
                        (ainsert balances1 sender_id ((sender_balance + refund) % U128MOD)) },
                (amount + U128MOD - refund) % U128MOD, 0)
        | none =>
          match alookup self.total_supply token_id with
          | none => none
          | some _ts =>
            some ({ self with
                      balances_per_token :=
                        ainsert self.balances_per_token token_id balances1 },
                  amount, refund)
      else some (self, amount, 0)
  else some (self, amount, 0)

/-- Per-token loop of `internal_resolve_transfers`: iterates over
`0..token_ids.len()`, indexing `amounts[i]` and `unused[i]` (out-of-bounds panics). -/
def resolveLoop (sender_id receiver : AccountId) :
    MultiToken → List TokenId → List Nat → List Nat →
    Option (MultiToken × List Nat × List Nat)
  | s, [], _, _ => some (s, [], [])
  | s, t :: trest, a :: arest, u :: urest =>
    match s.internal_resolve_single_transfer sender_id receiver t a u with
    | none => none
    | some (s1, kept, burned) =>
      match resolveLoop sender_id receiver s1 trest arest urest with
      | none => none
      | some (s2, keptRest, burnedRest) => some (s2, kept :: keptRest, burned :: burnedRest)
  | _, _ :: _, _, _ => none

/-- `internal_resolve_transfers` (`core_impl.rs:609`): derive the unused vector from the
notification promise's outcome, then resolve each token.  The `approvals` argument is
accepted and ignored, as in the source. -/
def MultiToken.internal_resolve_transfers (self : MultiToken)
    (sender_id : AccountId) (receiver : AccountId)
    (token_ids : List TokenId) (amounts : List Nat)
    (_approvals : Option (List (Option Approval))) (promise0 : PromiseResult) :
    Option (MultiToken × List Nat × List Nat) :=
  match computeUnused amounts promise0 with
  | none => none
  | some unused => resolveLoop sender_id receiver self token_ids amounts unused

/-- `mt_resolve_transfer`: returns the first component of
`internal_resolve_transfers` (the per-token amounts kept by the receiver). -/
def MultiToken.mt_resolve_transfer (self : MultiToken)
    (sender_id : AccountId) (receiver_id : AccountId)
    (token_ids : List TokenId) (amounts : List Nat)
    (approvals : Option (List (Option Approval))) (promise0 : PromiseResult) :
    Option (MultiToken × List Nat) :=
  match self.internal_resolve_transfers sender_id receiver_id token_ids amounts
      approvals promise0 with
  | none => none
  | some (s, kept, _burned) => some (s, kept)

/-- Sum of all registered owners' balances for a token: the quantity the supply
invariant compares with the stored `total_supply` entry. -/
def sumBalances (s : MultiToken) (token_id : TokenId) : Option Nat :=
  (alookup s.balances_per_token token_id).map (fun m => (m.map Prod.snd).sum)

/-- Example ledger: token `"1"` owned by `alice`, with `bob` holding an approval for it
and `alice`, `bob`, `carol` registered. -/
def exC1 : MultiToken :=
  { owner_id := "contract"
    extra_storage_in_bytes_per_emission := 0
    owner_by_id := [("1", "alice")]
    total_supply := [("1", 1000)]
    token_metadata_by_id := none
    tokens_per_owner := none
    balances_per_token := [("1", [("alice", 100), ("bob", 50), ("carol", 10)])]
    approvals_by_id := some [("1", [("bob", { amount := 50, approval_id := 0 })])]
    next_approval_id_by_id := some [("1", 1)]
    next_token_id := 1 }

/-- Example ledger after an optimistic transfer of 100 from `alice` to `bob`:
`alice` registered with 0, `bob` holding 100. -/
def exC3 : MultiToken :=
  { owner_id := "contract"
    extra_storage_in_bytes_per_emission := 0
    owner_by_id := [("1", "alice")]
    total_supply := [("1", 1000)]
    token_metadata_by_id := none
    tokens_per_owner := none
    balances_per_token := [("1", [("alice", 0), ("bob", 100)])]
    approvals_by_id := none
    next_approval_id_by_id := none
    next_token_id := 1 }

/-- Example ledger in which the original owner `alice` no longer has a balance entry
for token `"1"` while the receiver `bob` holds 50. -/
def exC5 : MultiToken :=
  { owner_id := "contract"
    extra_storage_in_bytes_per_emission := 0
    owner_by_id := [("1", "alice")]
    total_supply := [("1", 1000)]
    token_metadata_by_id := none
    tokens_per_owner := none
    balances_per_token := [("1", [("bob", 50)])]
    approvals_by_id := none
    next_approval_id_by_id := none
    next_token_id := 1 }

/-- Example ledger for the partial-refund scenario: at resolution time the receiver
`bob` retains only 10 of the 100 transferred. -/
def exC7 : MultiToken :=
  { owner_id := "contract"
    extra_storage_in_bytes_per_emission := 0
    owner_by_id := [("1", "alice")]
    total_supply := [("1", 1000)]
    token_metadata_by_id := none
    tokens_per_owner := none
    balances_per_token := [("1", [("alice", 0), ("bob", 10)])]
    approvals_by_id := none
    next_approval_id_by_id := none
    next_token_id := 1 }

/-- Example ledger with the approval extension enabled and an approval for `carol`
recorded on token `"1"`. -/
def exC8 : MultiToken :=
  { owner_id := "contract"
    extra_storage_in_bytes_per_emission := 0
    owner_by_id := [("1", "alice")]
    total_supply := [("1", 1000)]
    token_metadata_by_id := none
    tokens_per_owner := none
    balances_per_token := [("1", [("alice", 50), ("bob", 7)])]
    approvals_by_id := some [("1", [("carol", { amount := 9, approval_id := 3 })])]
    next_approval_id_by_id := some [("1", 4)]
    next_token_id := 1 }

/-- Example ledger with two tokens owned by `alice`; `bob` is registered for token
`"1"` but not for token `"2"`. -/
def exC9 : MultiToken :=
  { owner_id := "contract"
    extra_storage_in_bytes_per_emission := 0
    owner_by_id := [("1", "alice"), ("2", "alice")]
    total_supply := [("1", 1000), ("2", 1000)]
    token_metadata_by_id := none
    tokens_per_owner := none
    balances_per_token := [("1", [("alice", 100), ("bob", 0)]), ("2", [("alice", 100)])]
    approvals_by_id := none
    next_approval_id_by_id := none
    next_token_id := 2 }

/-- State of `exC8` after `alice` transfers 5 units of token `"1"` to `bob`. -/
def exC8post : MultiToken :=
  { exC8 with
      balances_per_token := [("1", [("bob", 12), ("alice", 45)])]
      approvals_by_id := some [] }

/-- State of `exC9` after the first leg of the batch (4 units of token `"1"` moved from
`alice` to `bob`) has executed. -/
def exC9mid : MultiToken :=
  { owner_id := "contract"
    extra_storage_in_bytes_per_emission := 0
    owner_by_id := [("1", "alice"), ("2", "alice")]
    total_supply := [("1", 1000), ("2", 1000)]
    token_metadata_by_id := none
    tokens_per_owner := none
    balances_per_token := [("1", [("bob", 4), ("alice", 96)]), ("2", [("alice", 100)])]
    approvals_by_id := none
    next_approval_id_by_id := none
    next_token_id := 2 }

theorem alookup_aremove_ne {α : Type} (l : List (String × α)) (k k' : String) (h : k' ≠ k) :
    alookup (aremove l k) k' = alookup l k' := by
  induction l with
  | nil => rfl
  | cons p rest ih =>
    obtain ⟨a, v⟩ := p
    by_cases ha : a = k
    · subst ha
      simp [aremove, alookup, ih, Ne.symm h]
    · simp [aremove, alookup, ha, ih]

theorem alookup_aremove_self {α : Type} (l : List (String × α)) (k : String) :
    alookup (aremove l k) k = none := by
  induction l with
  | nil => rfl
  | cons p rest ih =>
    obtain ⟨a, v⟩ := p
    by_cases ha : a = k <;> simp [aremove, alookup, ha, ih]

theorem alookup_ainsert_self {α : Type} (l : List (String × α)) (k : String) (v : α) :
    alookup (ainsert l k v) k = some v := by
  simp [ainsert, alookup]

theorem alookup_ainsert_ne {α : Type} (l : List (String × α)) (k k' : String) (v : α)
    (h : k' ≠ k) : alookup (ainsert l k v) k' = alookup l k' := by
  simp [ainsert, alookup, Ne.symm h, alookup_aremove_ne l k k' h]

theorem checkedAdd_eq_some {a b c : Nat} :
    checkedAdd a b = some c ↔ a + b < U128MOD ∧ c = a + b := by
  unfold checkedAdd
  split
  · simp_all [eq_comm]
  · simp_all

theorem checkedSub_eq_some {a b c : Nat} :
    checkedSub a b = some c ↔ b ≤ a ∧ c = a - b := by
  unfold checkedSub
  split
  · simp_all [eq_comm]
  · simp_all

theorem wrap_sub_eq {a r : Nat} (h1 : r ≤ a) (h2 : a < U128MOD) :
    (a + U128MOD - r) % U128MOD = a - r := by
  have h3 : a + U128MOD - r = (a - r) + U128MOD := by omega
  rw [h3, Nat.add_mod_right, Nat.mod_eq_of_lt (by omega)]

/-- Inversion of a successful `internal_withdraw`: the balance map and the account
entry existed, both subtractions were in range, and the new state is the expected
record update. -/
theorem internal_withdraw_eq {s s2 : MultiToken} {t : TokenId} {a : AccountId} {amt : Nat}
    (h : s.internal_withdraw t a amt = some s2) :
    ∃ m bal ts, alookup s.balances_per_token t = some m ∧ alookup m a = some bal ∧
      amt ≤ bal ∧ alookup s.total_supply t = some ts ∧ amt ≤ ts ∧
      s2 = { s with
        balances_per_token := ainsert s.balances_per_token t (ainsert m a (bal - amt))
        total_supply := ainsert s.total_supply t (ts - amt) } := by
  cases h1 : alookup s.balances_per_token t with
  | none =>
    simp [MultiToken.internal_withdraw, MultiToken.internal_unwrap_balance_of, h1] at h
  | some m =>
    cases h2 : alookup m a with
    | none =>
      simp [MultiToken.internal_withdraw, MultiToken.internal_unwrap_balance_of,
        h1, h2] at h
    | some bal =>
      cases h3 : checkedSub bal amt with
      | none =>
        simp [MultiToken.internal_withdraw, MultiToken.internal_unwrap_balance_of,
          h1, h2, h3] at h
      | some nb =>
        cases h4 : alookup s.total_supply t with
        | none =>
          simp [MultiToken.internal_withdraw, MultiToken.internal_unwrap_balance_of,
            h1, h2, h3, h4] at h
        | some ts =>
          cases h5 : checkedSub ts amt with
          | none =>
            simp [MultiToken.internal_withdraw, MultiToken.internal_unwrap_balance_of,
              h1, h2, h3, h4, h5] at h
          | some ts1 =>
            simp only [MultiToken.internal_withdraw, MultiToken.internal_unwrap_balance_of,
              h1, h2, h3, h4, h5, Option.some.injEq] at h
            obtain ⟨hble, hnb⟩ := checkedSub_eq_some.mp h3
            obtain ⟨htle, hts1⟩ := checkedSub_eq_some.mp h5
            exact ⟨m, bal, ts, rfl, h2, hble, rfl, htle, by rw [← h, hnb, hts1]⟩

/-- Inversion of a successful `internal_deposit`: the balance map and the account
entry existed, both additions stayed below `2^128`, and the new state is the expected
record update. -/
theorem internal_deposit_eq {s s2 : MultiToken} {t : TokenId} {a : AccountId} {amt : Nat}
    (h : s.internal_deposit t a amt = some s2) :
    ∃ m bal ts, alookup s.balances_per_token t = some m ∧ alookup m a = some bal ∧
      bal + amt < U128MOD ∧ alookup s.total_supply t = some ts ∧ ts + amt < U128MOD ∧
      s2 = { s with
        balances_per_token := ainsert s.balances_per_token t (ainsert m a (bal + amt))
        total_supply := ainsert s.total_supply t (ts + amt) } := by
  cases h1 : alookup s.balances_per_token t with
  | none =>
    simp [MultiToken.internal_deposit, MultiToken.internal_unwrap_balance_of, h1] at h
  | some m =>
    cases h2 : alookup m a with
    | none =>
      simp [MultiToken.internal_deposit, MultiToken.internal_unwrap_balance_of,
        h1, h2] at h
    | some bal =>
      cases h3 : checkedAdd bal amt with
      | none =>
        simp [MultiToken.internal_deposit, MultiToken.internal_unwrap_balance_of,
          h1, h2, h3] at h
      | some nb =>
        cases h4 : alookup s.total_supply t with
        | none =>
          simp [MultiToken.internal_deposit, MultiToken.internal_unwrap_balance_of,
            h1, h2, h3, h4] at h
        | some ts =>
          cases h5 : checkedAdd ts amt with
          | none =>
            simp [MultiToken.internal_deposit, MultiToken.internal_unwrap_balance_of,
              h1, h2, h3, h4, h5] at h
          | some ts1 =>
            simp only [MultiToken.internal_deposit, MultiToken.internal_unwrap_balance_of,
              h1, h2, h3, h4, h5, Option.some.injEq] at h
            obtain ⟨hblt, hnb⟩ := checkedAdd_eq_some.mp h3
            obtain ⟨htlt, hts1⟩ := checkedAdd_eq_some.mp h5
            exact ⟨m, bal, ts, rfl, h2, hblt, rfl, htlt, by rw [← h, hnb, hts1]⟩

/-- Inversion of a successful `internal_transfer`: the returned account is the sender,
the returned approval set is the token's pre-state approval map, and the final state is
a withdrawal from the sender followed by a deposit to the receiver, both run on the
state with the token's approvals removed. -/
theorem internal_transfer_eq {s s' : MultiToken} {sender receiver : AccountId}
    {token : TokenId} {amount : Nat} {approval_id : Option Nat}
    {owner : AccountId} {removed : Option (List (AccountId × Approval))}
    (h : s.internal_transfer sender receiver token amount approval_id
          = some (s', owner, removed)) :
    owner = sender ∧
    removed = s.approvals_by_id.bind (fun by_id => alookup by_id token) ∧
    ∃ s2, ({ s with approvals_by_id :=
              s.approvals_by_id.map (fun by_id => aremove by_id token) } :
            MultiToken).internal_withdraw token sender amount = some s2 ∧
          s2.internal_deposit token receiver amount = some s' := by
  by_cases hsr : sender = receiver
  · simp [MultiToken.internal_transfer, hsr] at h
  · by_cases ha0 : amount = 0
    · simp [MultiToken.internal_transfer, hsr, ha0] at h
    · cases h1 : alookup s.owner_by_id token with
      | none => simp [MultiToken.internal_transfer, hsr, ha0, h1] at h
      | some owner_of_token =>
        cases h2 : transferAuth (s.approvals_by_id.bind (fun by_id => alookup by_id token))
            sender owner_of_token approval_id with
        | none => simp [MultiToken.internal_transfer, hsr, ha0, h1, h2] at h
        | some u =>
          cases h3 : ({ s with approvals_by_id :=
                s.approvals_by_id.map (fun by_id => aremove by_id token) } :
              MultiToken).internal_withdraw token sender amount with
          | none => simp [MultiToken.internal_transfer, hsr, ha0, h1, h2, h3] at h
          | some s2 =>
            cases h4 : s2.internal_deposit token receiver amount with
            | none => simp [MultiToken.internal_transfer, hsr, ha0, h1, h2, h3, h4] at h
            | some s3 =>
              simp [MultiToken.internal_transfer, hsr, ha0, h1, h2, h3, h4] at h
              obtain ⟨hs3, howner, hrem⟩ := h
              refine ⟨howner.symm, ?_, s2, rfl, ?_⟩
              · rw [← hrem]
              · rw [← hs3]; exact h4

/-- C1: the claim states that a successful transfer by an authorized approved spender
withdraws the amount from the token's owner-of-record and returns the owner-of-record
as the first component.  The code contradicts this: on `exC1` (token `"1"` owned by
`alice`, spender `bob` approved), `bob`'s transfer of 5 to `carol` succeeds but debits
`bob` (50 to 45), leaves the owner-of-record `alice` untouched at 100, and returns
`"bob"`, not `"alice"`. -/
theorem internal_transfer_debits_approved_sender_not_owner :
    alookup exC1.owner_by_id "1" = some "alice" ∧
    exC1.internal_transfer "bob" "carol" "1" 5 none
      = some ({ exC1 with
                  balances_per_token := [("1", [("carol", 15), ("bob", 45), ("alice", 100)])]
                  approvals_by_id := some [] },
              "bob",
              some [("bob", { amount := 50, approval_id := 0 })]) ∧
    ("bob" : AccountId) ≠ "alice" := by
  refine ⟨by decide, by decide, by decide⟩

/-- C2: the claim states that in every reachable state the sum of registered owners'
balances for a token equals the stored `total_supply` entry.  A single mint from a
fresh ledger already violates it: minting 5 units to `alice` stores
`u128::MAX` (`core_impl.rs:354`) as the supply of token `"1"` while the balances sum
to 5. -/
theorem internal_mint_breaks_supply_sum_invariant :
    ((MultiToken.new "contract" false false false).internal_mint "alice"
        (some 5) none none).map
      (fun r => (alookup r.1.total_supply "1", sumBalances r.1 "1"))
      = some (some U128MAX, some 5) ∧
    U128MAX ≠ 5 := by
  refine ⟨by decide, by decide⟩

/-- C3: the claim states that when the notification promise outright fails, the whole
amount is treated as unused and a full reversal is attempted.  The code does the
opposite (`PromiseResult::Failed => vec![0.into(); ...]`, `core_impl.rs:631`): on
`exC3` (100 transferred from `alice` to `bob`), resolution after a failed promise
leaves the state completely unchanged, reports the full 100 as kept by the receiver
and refunds nothing. -/
theorem internal_resolve_failed_promise_refunds_nothing :
    exC3.internal_resolve_transfers "alice" "bob" ["1"] [100] none .failed
      = some (exC3, [100], [0]) := by
  decide

/-- C4 counterexample: the claim states that a successful promise with a malformed
reply is treated as fully used, with no reversal and the receiver keeping everything.
On `exC3` the code instead treats the whole amount as unused
(`core_impl.rs:627`): the receiver `bob` is debited from 100 down to 0, the full 100
moves back to `alice`, and the settled amount reported for the receiver is 0. -/
theorem internal_resolve_malformed_reply_refunds_everything :
    exC3.internal_resolve_transfers "alice" "bob" ["1"] [100] none (.successful none)
      = some ({ exC3 with
                  balances_per_token := [("1", [("alice", 100), ("bob", 0)])] },
              [0], [0]) ∧
    ((exC3.internal_resolve_transfers "alice" "bob" ["1"] [100] none
        (.successful none)).map
      (fun r => (alookup r.1.balances_per_token "1").map (fun mm => alookup mm "bob")))
      = some (some (some 0)) := by
  refine ⟨by decide, by decide⟩

/-- C4 as amended: when the notification promise succeeds but its reply cannot be
parsed as a list of unused amounts, `internal_resolve_transfers` takes the entire
`amounts` vector as the unused amounts, i.e. it attempts a full reversal of every
token's transferred amount. -/
theorem internal_resolve_malformed_reply_treats_all_as_unused
    (s : MultiToken) (sender receiver : AccountId)
    (token_ids : List TokenId) (amounts : List Nat)
    (approvals : Option (List (Option Approval))) :
    s.internal_resolve_transfers sender receiver token_ids amounts approvals
        (.successful none)
      = resolveLoop sender receiver s token_ids amounts amounts := rfl

/-- C5: the claim states that when a nonzero refund exists but the original owner's
balance entry is gone, the refund is burned out of the stored `total_supply`.  The
code's `*self.total_supply.get(..).as_mut().unwrap() -= refund` (`core_impl.rs:670`)
mutates a temporary copy and never writes it back: on `exC5` (owner `alice`
deregistered, receiver `bob` holding 50, refund 30), `bob` is debited to 20 and the
pair `(amount, refund)` is returned, but the stored supply stays at 1000 instead of
dropping to 970. -/
theorem internal_resolve_missing_sender_leaves_total_supply_unchanged :
    exC5.internal_resolve_single_transfer "alice" "bob" "1" 100 30
      = some ({ exC5 with balances_per_token := [("1", [("bob", 20)])] }, 100, 30) ∧
    ((exC5.internal_resolve_single_transfer "alice" "bob" "1" 100 30).map
        (fun r => alookup r.1.total_supply "1")) = some (some 1000) ∧
    (1000 : Nat) ≠ 1000 - 30 := by
  refine ⟨by decide, by decide, by decide⟩

/-- C6 counterexample: the claim states that `mt_balance_of` fails whenever no balance
entry exists for the account.  On `exC3`, `carol` has no entry for token `"1"`, yet
`mt_balance_of` succeeds and returns 0 (`unwrap_or(0)`, `core_impl.rs:602`). -/
theorem mt_balance_of_unregistered_returns_zero :
    ((alookup exC3.balances_per_token "1").map (fun m => alookup m "carol"))
      = some none ∧
    exC3.mt_balance_of "carol" "1" = some 0 := by
  refine ⟨by decide, by decide⟩

/-- C6 as amended: `mt_balance_of` / `internal_balance_of` panic only when the token
itself has no balance map ("Token not found."); for an existing token they return 0
whenever the account has no balance entry, never failing on an unregistered account. -/
theorem internal_balance_of_absent_entry_is_zero
    (s : MultiToken) (account : AccountId) (token : TokenId)
    (m : List (AccountId × Nat))
    (hm : alookup s.balances_per_token token = some m)
    (ha : alookup m account = none) :
    s.mt_balance_of account token = some 0 := by
  unfold MultiToken.mt_balance_of MultiToken.internal_balance_of
  simp [hm, ha]

/-- Witness for the amended C6 theorem at a concrete input. -/
theorem internal_balance_of_absent_entry_is_zero_witness :
    alookup exC3.balances_per_token "1" = some [("alice", 0), ("bob", 100)] ∧
    alookup [("alice", (0 : Nat)), ("bob", 100)] "dave" = none ∧
    exC3.mt_balance_of "dave" "1" = some 0 :=
  ⟨by decide, by decide,
   internal_balance_of_absent_entry_is_zero exC3 "dave" "1"
     [("alice", 0), ("bob", 100)] (by decide) (by decide)⟩

/-- C7: in `internal_resolve_single_transfer` with nonzero `unused`, when the sender's
entry still exists the call always succeeds: the refund is `min(receiver_balance,
unused)` — the full unused amount when the receiver's balance covers it, otherwise
exactly the receiver's remaining balance — the receiver is debited by the refund
(never below zero), the sender is credited by it, nothing is burned, and the reported
kept amount is `amount - refund`. -/
theorem internal_resolve_single_partial_refund
    (s : MultiToken) (sender receiver : AccountId) (token : TokenId)
    (amount unused sb : Nat) (m : List (AccountId × Nat))
    (hm : alookup s.balances_per_token token = some m)
    (hsb : alookup m sender = some sb)
    (hns : sender ≠ receiver)
    (hu : 0 < unused) (hua : unused ≤ amount) (ham : amount < U128MOD)
    (hov : sb + min ((alookup m receiver).getD 0) unused < U128MOD) :
    (s.internal_resolve_single_transfer sender receiver token amount unused).map
        (fun r => (r.2.1, r.2.2,
          (alookup r.1.balances_per_token token).map
            (fun mm => ((alookup mm receiver).getD 0, alookup mm sender))))
      = some (amount - min ((alookup m receiver).getD 0) unused, 0,
              some ((alookup m receiver).getD 0
                      - min ((alookup m receiver).getD 0) unused,
                    some (sb + min ((alookup m receiver).getD 0) unused))) := by
  by_cases hpos : 0 < (alookup m receiver).getD 0
  · have hsb1 : alookup (ainsert m receiver
        ((alookup m receiver).getD 0 - min ((alookup m receiver).getD 0) unused))
          sender = some sb := by
      rw [alookup_ainsert_ne _ _ _ _ hns]; exact hsb
    have hmod : (sb + min ((alookup m receiver).getD 0) unused) % U128MOD
        = sb + min ((alookup m receiver).getD 0) unused := Nat.mod_eq_of_lt hov
    have hwrap : (amount + U128MOD - min ((alookup m receiver).getD 0) unused) % U128MOD
        = amount - min ((alookup m receiver).getD 0) unused :=
      wrap_sub_eq (le_trans (Nat.min_le_right _ _) hua) ham
    have hrecv : ∀ (l : List (AccountId × Nat)) (v : Nat),
        alookup (ainsert l sender v) receiver = alookup l receiver :=
      fun l v => alookup_ainsert_ne l sender receiver v (Ne.symm hns)
    simp [MultiToken.internal_resolve_single_transfer, hm, hu, hpos, hsb1, hmod,
      hwrap, hrecv, alookup_ainsert_self]
  · have hz : (alookup m receiver).getD 0 = 0 := by omega
    simp [MultiToken.internal_resolve_single_transfer, hm, hu, hz, hsb]

/-- Witness for C7 at the spec's scenario-3 numbers: 100 transferred, 30 unused, but
the receiver `bob` retains only 10, so exactly 10 flows back to `alice` and the call
still succeeds reporting 90 kept. -/
theorem internal_resolve_single_partial_refund_witness :
    alookup exC7.balances_per_token "1" = some [("alice", 0), ("bob", 10)] ∧
    alookup [("alice", (0 : Nat)), ("bob", 10)] "alice" = some 0 ∧
    ("alice" : AccountId) ≠ "bob" ∧
    (0 : Nat) < 30 ∧ (30 : Nat) ≤ 100 ∧ (100 : Nat) < U128MOD ∧
    0 + min ((alookup [("alice", (0 : Nat)), ("bob", 10)] "bob").getD 0) 30 < U128MOD ∧
    (exC7.internal_resolve_single_transfer "alice" "bob" "1" 100 30).map
        (fun r => (r.2.1, r.2.2,
          (alookup r.1.balances_per_token "1").map
            (fun mm => ((alookup mm "bob").getD 0, alookup mm "alice"))))
      = some (90, 0, some (0, some 10)) := by
  refine ⟨by decide, by decide, by decide, by decide, by decide, by decide, by decide, ?_⟩
  exact (internal_resolve_single_partial_refund exC7 "alice" "bob" "1" 100 30 0
    [("alice", 0), ("bob", 10)] (by decide) (by decide) (by decide) (by decide)
    (by decide) (by decide) (by decide)).trans (by decide)

/-- C8: every successful `internal_transfer` removes the token's entire approval map —
not only the sender's entry — and returns exactly that removed set; afterwards the
token has no approvals recorded. -/
theorem internal_transfer_clears_all_approvals
    (s s' : MultiToken) (sender receiver : AccountId) (token : TokenId)
    (amount : Nat) (approval_id : Option Nat) (owner : AccountId)
    (removed : Option (List (AccountId × Approval)))
    (by_id : List (TokenId × List (AccountId × Approval)))
    (h : s.internal_transfer sender receiver token amount approval_id
          = some (s', owner, removed))
    (hap : s.approvals_by_id = some by_id) :
    removed = alookup by_id token ∧
    s'.approvals_by_id = some (aremove by_id token) ∧
    s'.approvals_by_id.map (fun b => alookup b token) = some none := by
  obtain ⟨-, hrem, s2, hw, hd⟩ := internal_transfer_eq h
  obtain ⟨m, bal, ts, -, -, -, -, -, hs2⟩ := internal_withdraw_eq hw
  obtain ⟨m2, bal2, ts2, -, -, -, -, -, hs'⟩ := internal_deposit_eq hd
  subst hs2
  subst hs'
  refine ⟨?_, ?_, ?_⟩
  · rw [hrem, hap]; rfl
  · simp [hap]
  · simp [hap, alookup_aremove_self]

/-- Witness for C8: the owner `alice` transfers 5 of token `"1"` to `bob`; `carol`'s
unrelated approval is wiped and returned. -/
theorem internal_transfer_clears_all_approvals_witness :
    exC8.internal_transfer "alice" "bob" "1" 5 none
      = some (exC8post, "alice", some [("carol", { amount := 9, approval_id := 3 })]) ∧
    exC8.approvals_by_id = some [("1", [("carol", { amount := 9, approval_id := 3 })])] ∧
    (some [("carol", { amount := 9, approval_id := 3 })]
        : Option (List (AccountId × Approval)))
      = alookup [("1", [("carol", { amount := 9, approval_id := 3 })])] "1" ∧
    exC8post.approvals_by_id
      = some (aremove [("1", [("carol", { amount := 9, approval_id := 3 })])] "1") :=
  ⟨by decide, by decide,
   (internal_transfer_clears_all_approvals exC8 exC8post "alice" "bob" "1" 5 none
      "alice" (some [("carol", { amount := 9, approval_id := 3 })])
      [("1", [("carol", { amount := 9, approval_id := 3 })])]
      (by decide) (by decide)).1,
   (internal_transfer_clears_all_approvals exC8 exC8post "alice" "bob" "1" 5 none
      "alice" (some [("carol", { amount := 9, approval_id := 3 })])
      [("1", [("carol", { amount := 9, approval_id := 3 })])]
      (by decide) (by decide)).2.1⟩

/-- C10: every successful `internal_transfer` leaves the transferred token's stored
`total_supply` entry unchanged: the withdrawal decrements it by `amount` and the
deposit increments it back by the same `amount`. -/
theorem internal_transfer_preserves_total_supply
    (s s' : MultiToken) (sender receiver : AccountId) (token : TokenId) (amount : Nat)
    (approval_id : Option Nat) (owner : AccountId)
    (removed : Option (List (AccountId × Approval)))
    (h : s.internal_transfer sender receiver token amount approval_id
          = some (s', owner, removed)) :
    alookup s'.total_supply token = alookup s.total_supply token := by
  obtain ⟨-, -, s2, hw, hd⟩ := internal_transfer_eq h
  obtain ⟨m, bal, ts, hm, hb, hba, hts, htsa, hs2⟩ := internal_withdraw_eq hw
  obtain ⟨m2, bal2, ts2, hm2, hb2, hblt2, hts2, htlt2, hs'⟩ := internal_deposit_eq hd
  subst hs2
  subst hs'
  simp only at hts hts2 ⊢
  rw [alookup_ainsert_self] at hts2
  rw [alookup_ainsert_self, hts]
  have hts2' : ts - amount = ts2 := by injection hts2
  have : ts2 + amount = ts := by omega
  rw [this]

/-- Witness for C10: the concrete transfer of 5 units of token `"1"` from `alice` to
`bob` on `exC8` keeps the stored supply at 1000. -/
theorem internal_transfer_preserves_total_supply_witness :
    exC8.internal_transfer "alice" "bob" "1" 5 none
      = some (exC8post, "alice", some [("carol", { amount := 9, approval_id := 3 })]) ∧
    alookup exC8post.total_supply "1" = alookup exC8.total_supply "1" :=
  ⟨by decide,
   internal_transfer_preserves_total_supply exC8 exC8post "alice" "bob" "1" 5 none
     "alice" (some [("carol", { amount := 9, approval_id := 3 })]) (by decide)⟩

/-- Fail-fast property of the batch loop: if running the first `k` legs sequentially
reaches `smid` and leg `k` panics there, the whole loop panics. -/
theorem batchGo_none_of_leg_fail (sender_id receiver_id : AccountId) :
    ∀ (k : Nat) (tks : List TokenId) (amts : List Nat) (aids : List (Option Nat))
      (s smid : MultiToken) (os : List AccountId)
      (aps : List (Option (List (AccountId × Approval))))
      (tk : TokenId) (ak : Nat) (idk : Option Nat),
      tks.get? k = some tk → amts.get? k = some ak → aids.get? k = some idk →
      batchGo sender_id receiver_id s (tks.take k) (amts.take k) (aids.take k)
        = some (smid, os, aps) →
      smid.internal_transfer sender_id receiver_id tk ak idk = none →
      batchGo sender_id receiver_id s tks amts aids = none := by
  intro k
  induction k with
  | zero =>
    intro tks amts aids s smid os aps tk ak idk h1 h2 h3 hpre hfail
    cases tks with
    | nil => simp [List.get?] at h1
    | cons t trest =>
      cases amts with
      | nil => simp [List.get?] at h2
      | cons a arest =>
        cases aids with
        | nil => simp [List.get?] at h3
        | cons i irest =>
          simp [List.get?] at h1 h2 h3
          subst h1
          subst h2
          subst h3
          simp [List.take, batchGo] at hpre
          obtain ⟨h4, h5, h6⟩ := hpre
          subst h4
          simp [batchGo, hfail]
  | succ k ih =>
    intro tks amts aids s smid os aps tk ak idk h1 h2 h3 hpre hfail
    cases tks with
    | nil => simp [List.get?] at h1
    | cons t trest =>
      cases amts with
      | nil => simp [List.get?] at h2
      | cons a arest =>
        cases aids with
        | nil => simp [List.get?] at h3
        | cons i irest =>
          simp only [List.get?_cons_succ] at h1 h2 h3
          simp only [List.take, batchGo] at hpre
          cases htr : s.internal_transfer sender_id receiver_id t a i with
          | none => simp [htr] at hpre
          | some r1 =>
            obtain ⟨s1, o1, ap1⟩ := r1
            simp only [htr] at hpre
            cases hrec : batchGo sender_id receiver_id s1
                (List.take k trest) (List.take k arest) (List.take k irest) with
            | none => simp [hrec] at hpre
            | some r2 =>
              obtain ⟨s2, os2, aps2⟩ := r2
              simp only [hrec, Option.some.injEq, Prod.mk.injEq] at hpre
              obtain ⟨h4, h5, h6⟩ := hpre
              subst h4
              have hnone := ih trest arest irest s1 _ os2 aps2 tk ak idk
                h1 h2 h3 hrec hfail
              simp [batchGo, htr, hnone]

/-- C9: `mt_batch_transfer` is all-or-nothing.  If any leg of the batch fails when the
legs are applied sequentially, the whole invocation panics (`none`) and the persisted
ledger state is exactly the pre-call state. -/
theorem mt_batch_transfer_all_or_nothing
    (s : MultiToken) (dep : Nat) (sender receiver : AccountId)
    (token_ids : List TokenId) (amounts : List Nat) (aids : List (Option Nat))
    (memo : Option String) (k : Nat) (smid : MultiToken) (os : List AccountId)
    (aps : List (Option (List (AccountId × Approval))))
    (tk : TokenId) (ak : Nat) (idk : Option Nat)
    (h1 : token_ids.get? k = some tk) (h2 : amounts.get? k = some ak)
    (h3 : aids.get? k = some idk)
    (hpre : batchGo sender receiver s (token_ids.take k) (amounts.take k) (aids.take k)
              = some (smid, os, aps))
    (hfail : smid.internal_transfer sender receiver tk ak idk = none) :
    s.mt_batch_transfer dep sender receiver token_ids amounts (some aids) memo
      = none ∧
    persistState s
        (s.mt_batch_transfer dep sender receiver token_ids amounts (some aids) memo)
      = s := by
  have hnone := batchGo_none_of_leg_fail sender receiver k token_ids amounts aids
    s smid os aps tk ak idk h1 h2 h3 hpre hfail
  have hmain : s.mt_batch_transfer dep sender receiver token_ids amounts
      (some aids) memo = none := by
    simp [MultiToken.mt_batch_transfer, MultiToken.internal_batch_transfer, hnone]
  exact ⟨hmain, by rw [hmain]; rfl⟩

/-- Witness for C9 at the spec's scenario 2: a batch from `alice` to `bob` over tokens
`"1"` (amount 4, succeeds) and `"2"` (amount 600, fails: `alice` holds only 100 and
`bob` is unregistered); the whole call fails and nothing persists, including the
already-executed first leg. -/
theorem mt_batch_transfer_all_or_nothing_witness :
    (["1", "2"] : List TokenId).get? 1 = some "2" ∧
    ([4, 600] : List Nat).get? 1 = some 600 ∧
    ([none, none] : List (Option Nat)).get? 1 = some none ∧
    batchGo "alice" "bob" exC9 (["1", "2"].take 1) ([4, 600].take 1)
        ([none, none].take 1) = some (exC9mid, ["alice"], [none]) ∧
    exC9mid.internal_transfer "alice" "bob" "2" 600 none = none ∧
    exC9.mt_batch_transfer 1 "alice" "bob" ["1", "2"] [4, 600] (some [none, none]) none
      = none ∧
    persistState exC9
        (exC9.mt_batch_transfer 1 "alice" "bob" ["1", "2"] [4, 600]
          (some [none, none]) none)
      = exC9 :=
  ⟨by decide, by decide, by decide, by decide, by decide,
   (mt_batch_transfer_all_or_nothing exC9 1 "alice" "bob" ["1", "2"] [4, 600]
      [none, none] none 1 exC9mid ["alice"] [none] "2" 600 none
      (by decide) (by decide) (by decide) (by decide) (by decide)).1,
   (mt_batch_transfer_all_or_nothing exC9 1 "alice" "bob" ["1", "2"] [4, 600]
      [none, none] none 1 exC9mid ["alice"] [none] "2" 600 none
      (by decide) (by decide) (by decide) (by decide) (by decide)).2⟩
